import Mathlib

/-!
Verification of the `may` coroutine I/O reactor core: a shallow embedding of
the Unix epoll selector, the Windows IOCP selector, the TCP connect protocol
and the `TcpStream` wrapper, with theorems settling the specification claims.

Modelling conventions: raw fds/handles, coroutine values and memory addresses
are `Nat`; a raw pointer that may be null is `Option Nat` (`none` = null);
OS side effects are recorded as explicit call records or step traces; a Rust
panic is the `Except.error` branch of an `Except String` result.
-/

namespace May

namespace Epoll

/-- Linux epoll flag values (from the `nix` crate re-exports used by the code). -/
def EPOLLIN : Nat := 1

def EPOLLOUT : Nat := 4

def EPOLLONESHOT : Nat := 1073741824

def EPOLLET : Nat := 2147483648

/-- The interest flag set `{READ, WRITE}` (`EventFlags` with `FLAG_READ`,
`FLAG_WRITE` in the source). -/
structure EventFlags where
  read : Bool
  write : Bool
deriving DecidableEq, Repr

/-- `interest_to_epoll_kind` from `epoll.rs`: starts from
`EPOLLONESHOT | EPOLLET` and inserts `EPOLLIN` / `EPOLLOUT` per interest bit. -/
def interest_to_epoll_kind (interest : EventFlags) : Nat :=
  let kind := EPOLLONESHOT ||| EPOLLET
  let kind := if interest.read then kind ||| EPOLLIN else kind
  let kind := if interest.write then kind ||| EPOLLOUT else kind
  kind

/-- An epoll event: the mask and the user data token. -/
structure EpollEvent where
  events : Nat
  data : Nat
deriving DecidableEq, Repr

/-- `TimerData`: payload stored in the timer list, holding a raw back-pointer
to the owning `EventData` (`none` models a null pointer). -/
structure TimerData where
  event_data : Option Nat
deriving DecidableEq, Repr

/-- The Unix `EventData` control block, with the fields exercised by the code
under verification; `addr` is its stable memory address (the OS token). -/
structure EventData where
  fd : Nat
  interest : EventFlags
  timer : Option Nat
  co : Option Nat
  io_flag : Nat
  addr : Nat
deriving DecidableEq, Repr

/-- `EventData::timer_data()`: a `TimerData` whose back-pointer is this
`EventData`'s address. -/
def EventData.timer_data (ev : EventData) : TimerData := ⟨some ev.addr⟩

/-- Modelled from the spec: the `TimerList` collaborator (module
`timeout_list`, not part of the sources under verification). Its interface is
`add(duration, payload) → (handle, is_earliest)`; entries are
`(handle, duration, payload)` and `is_earliest` is true exactly when the new
deadline is strictly earlier than every pending deadline. -/
structure TimerList where
  entries : List (Nat × Nat × TimerData)
  next_handle : Nat
deriving DecidableEq, Repr

def TimerList.new : TimerList := ⟨[], 0⟩

/-- Modelled from the spec: `TimerList.add_timer` returns a fresh handle and
whether the insertion produced a new earliest deadline. -/
def TimerList.add_timer (tl : TimerList) (dur : Nat) (payload : TimerData) :
    (Nat × Bool) × TimerList :=
  let h := tl.next_handle
  let b_new := tl.entries.all (fun e => dur < e.2.1)
  ((h, b_new), ⟨tl.entries ++ [(h, dur, payload)], h + 1⟩)

/-- One shard: epoll fd, eventfd wakeup channel, timer list. -/
structure SingleSelector where
  epfd : Nat
  evfd : Nat
  timer_list : TimerList
deriving DecidableEq, Repr

instance : Inhabited SingleSelector := ⟨⟨0, 0, TimerList.new⟩⟩

/-- The selector: a fixed array of shards. -/
structure Selector where
  vec : List SingleSelector
deriving DecidableEq, Repr

inductive EpollOp
  | add
  | del
deriving DecidableEq, Repr

/-- A recorded `epoll_ctl` system call. -/
structure EpollCtlCall where
  epfd : Nat
  op : EpollOp
  fd : Nat
  info : EpollEvent
deriving DecidableEq, Repr

/-- The shard hash the code applies to an fd before taking it mod N: the
plain `fd as usize` cast, i.e. the identity on non-negative fds. -/
def fd_hash (fd : Nat) : Nat := fd

/-- `Selector::add_io`: builds the epoll event carrying the `EventData`
address as token and issues `EPOLL_CTL_ADD` on the shard `fd % vec.len()`.
Returns the shard index used together with the recorded call. -/
def Selector.add_io (s : Selector) (ev_data : EventData) : Nat × EpollCtlCall :=
  let info : EpollEvent := ⟨interest_to_epoll_kind ev_data.interest, ev_data.addr⟩
  let fd := ev_data.fd
  let id := fd % s.vec.length
  let epfd := (s.vec.getD id default).epfd
  (id, ⟨epfd, .add, fd, info⟩)

/-- `Selector::del_fd`: issues `EPOLL_CTL_DEL` on the shard `fd % vec.len()`
(the OS error is swallowed in the source). -/
def Selector.del_fd (s : Selector) (fd : Nat) : Nat × EpollCtlCall :=
  let info : EpollEvent := ⟨0, 0⟩
  let id := fd % s.vec.length
  let epfd := (s.vec.getD id default).epfd
  (id, ⟨epfd, .del, fd, info⟩)

/-- Result of `Selector::add_io_timer`: the updated `EventData`, the updated
selector, the list of shard wakeups issued, and the shard index used. -/
structure AddIoTimerResult where
  io : EventData
  sel : Selector
  wakeups : List Nat
  shard : Nat
deriving DecidableEq, Repr

/-- `Selector::add_io_timer`: `io.timer = timeout.map(|dur| { let (h, b_new) =
timer_list.add_timer(dur, io.timer_data()); if b_new { wakeup(id) }; h })`
on the shard `io.fd % vec.len()`. -/
def Selector.add_io_timer (s : Selector) (io : EventData) (timeout : Option Nat) :
    AddIoTimerResult :=
  let id := io.fd % s.vec.length
  match timeout with
  | none => ⟨{ io with timer := none }, s, [], id⟩
  | some dur =>
    let ss := s.vec.getD id default
    let ((h, b_new), tl) := ss.timer_list.add_timer dur io.timer_data
    ⟨{ io with timer := some h }, ⟨s.vec.set id { ss with timer_list := tl }⟩,
      if b_new then [id] else [], id⟩

/-- A registration recorded by `epoll_ctl(ADD)` in the OS model. -/
structure EpollCtlReg where
  epfd : Nat
  fd : Nat
  info : EpollEvent
deriving DecidableEq, Repr

/-- OS model for selector construction: a counter handing out fresh fds, the
set of `EPOLL_CTL_ADD` registrations performed, and per-syscall failure
switches (each OS call is fallible in the source). -/
structure Os where
  next_fd : Nat
  regs : List EpollCtlReg
  epoll_create_fail : Bool
  eventfd_fail : Bool
  epoll_ctl_fail : Bool
deriving DecidableEq, Repr

def Os.epoll_create (os : Os) : Except Nat (Nat × Os) :=
  if os.epoll_create_fail then .error 1
  else .ok (os.next_fd, { os with next_fd := os.next_fd + 1 })

def Os.create_eventfd (os : Os) : Except Nat (Nat × Os) :=
  if os.eventfd_fail then .error 2
  else .ok (os.next_fd, { os with next_fd := os.next_fd + 1 })

def Os.epoll_ctl_add (os : Os) (epfd fd : Nat) (info : EpollEvent) :
    Except Nat Os :=
  if os.epoll_ctl_fail then .error 3
  else .ok { os with regs := os.regs ++ [⟨epfd, fd, info⟩] }

/-- The event the eventfd wakeup channel is registered with:
`EPOLLONESHOT | EPOLLET | EPOLLIN`, data 0. -/
def wakeup_info : EpollEvent := ⟨EPOLLONESHOT ||| EPOLLET ||| EPOLLIN, 0⟩

/-- `SingleSelector::new`: `epoll_create`, `create_eventfd`, then register the
eventfd on the epoll fd with `wakeup_info`; any failure propagates. -/
def SingleSelector.new (os : Os) : Except Nat (SingleSelector × Os) :=
  match os.epoll_create with
  | .error e => .error e
  | .ok (epfd, os1) =>
    match os1.create_eventfd with
    | .error e => .error e
    | .ok (evfd, os2) =>
      match os2.epoll_ctl_add epfd evfd wakeup_info with
      | .error e => .error e
      | .ok os3 => .ok (⟨epfd, evfd, TimerList.new⟩, os3)

/-- The `for _ in 0..io_workers` loop of `Selector::new`, pushing one
freshly constructed shard per iteration; a failure aborts the whole
construction. -/
def Selector.newAux : Nat → List SingleSelector → Os →
    Except Nat (List SingleSelector × Os)
  | 0, acc, os => .ok (acc, os)
  | n + 1, acc, os =>
    match SingleSelector.new os with
    | .error e => .error e
    | .ok (ss, os1) => Selector.newAux n (acc ++ [ss]) os1

/-- `Selector::new(io_workers)`: builds `io_workers` shards, with no check on
the requested count. -/
def Selector.new (io_workers : Nat) (os : Os) : Except Nat (Selector × Os) :=
  match Selector.newAux io_workers [] os with
  | .error e => .error e
  | .ok (l, os1) => .ok (⟨l⟩, os1)

/-- All three OS calls of shard construction are set to succeed. -/
def Os.nofail (os : Os) : Prop :=
  os.epoll_create_fail = false ∧ os.eventfd_fail = false ∧ os.epoll_ctl_fail = false

instance (os : Os) : Decidable os.nofail := by
  unfold Os.nofail
  infer_instance

/-- Steps taken while `Selector::select` processes one dequeued epoll event. -/
inductive UnixStep
  | drainWakeup
  | prefetch (co : Nat)
  | nullBackPtr (h : Nat)
  | unlinkTimer (h : Nat)
  | resume (co : Nat)
  | subscribe (co : Nat)
deriving DecidableEq, Repr

/-- The per-event body of the Unix `Selector::select` loop. `mem` maps an
`EventData` address to its contents; `resume_returns_source` tells whether
`co.resume()` returned a new event source. A `data == 0` event is the wakeup
sentinel: drain the eventfd and continue. Otherwise the coroutine slot is
taken with `.expect("can't get co in selector")` — a panic (modelled as
`Except.error`) when the slot is empty; then the timer, if set, has its
back-pointer nulled and is then unlinked; finally the coroutine is resumed
(`panic!("coroutine not return!")` if it yields no new source). -/
def select_process_event (ev : EpollEvent) (mem : Nat → EventData)
    (resume_returns_source : Bool) :
    Except String ((Nat → EventData) × List UnixStep) :=
  if ev.data = 0 then .ok (mem, [.drainWakeup])
  else
    let data := mem ev.data
    match data.co with
    | none => .error "can't get co in selector"
    | some co =>
      let timer_steps : List UnixStep :=
        match data.timer with
        | none => []
        | some h => [.nullBackPtr h, .unlinkTimer h]
      let data1 := { data with co := none, timer := none }
      let mem1 := fun a => if a = ev.data then data1 else mem a
      if resume_returns_source then
        .ok (mem1, [.prefetch co] ++ timer_steps ++ [.resume co, .subscribe co])
      else .error "coroutine not return!"

end Epoll

namespace Iocp

/-- Windows status constants (`winapi`): `ERROR_OPERATION_ABORTED`,
`STATUS_CANCELLED as u32`, `NO_ERROR`. -/
def ERROR_OPERATION_ABORTED : Nat := 995

def STATUS_CANCELLED : Nat := 3221225760

def NO_ERROR : Nat := 0

/-- `TimerData` on Windows: raw back-pointer to the owning `EventData`. -/
structure TimerData where
  event_data : Option Nat
deriving DecidableEq, Repr

/-- The Windows `EventData` (`#[repr(C)]`, the overlapped structure at offset
zero so the completion's overlapped pointer doubles as the `EventData`
address `addr`); `internal` is the `Internal` status word of the embedded
overlapped. -/
structure EventData where
  handle : Nat
  timer : Option Nat
  co : Option Nat
  internal : Nat
  addr : Nat
deriving DecidableEq, Repr

/-- A dequeued `CompletionStatus`: its overlapped pointer (`none` = null, the
wakeup sentinel). -/
structure CompletionStatus where
  overlapped : Option Nat
deriving DecidableEq, Repr

/-- Pending error attached to a coroutine via `set_co_para`. -/
inductive CoErr
  | timedOut
  | osErr (code : Nat)
deriving DecidableEq, Repr

/-- Steps taken while the Windows `Selector::select` processes one dequeued
completion status. -/
inductive WinStep
  | ignoreWakeup
  | errorLogNoCo
  | setCoPara (e : CoErr)
  | nullBackPtr (h : Nat)
  | unlinkTimer (h : Nat)
  | scheduleIo (co : Nat)
deriving DecidableEq, Repr

/-- The status dispatch of the Windows `select`: `ERROR_OPERATION_ABORTED` or
`STATUS_CANCELLED` attach a TimedOut error, `NO_ERROR` attaches nothing, any
other status attaches the OS error built from it. -/
def status_steps (internal : Nat) : List WinStep :=
  if internal = ERROR_OPERATION_ABORTED ∨ internal = STATUS_CANCELLED then
    [.setCoPara .timedOut]
  else if internal = NO_ERROR then []
  else [.setCoPara (.osErr internal)]

/-- The per-completion body of the Windows `Selector::select` loop. A null
overlapped is the wakeup sentinel. An empty `co` slot is logged
(`error!("can't get coroutine in the iocp select")`) and the event dropped.
Otherwise: status dispatch, then timer removal (back-pointer nulled before
the node is unlinked), then `schedule_io(co)`. -/
def select_process_status (st : CompletionStatus) (mem : Nat → EventData) :
    (Nat → EventData) × List WinStep :=
  match st.overlapped with
  | none => (mem, [.ignoreWakeup])
  | some addr =>
    let data := mem addr
    match data.co with
    | none => (mem, [.errorLogNoCo])
    | some co =>
      let timer_steps : List WinStep :=
        match data.timer with
        | none => []
        | some h => [.nullBackPtr h, .unlinkTimer h]
      let data1 := { data with co := none, timer := none }
      let mem1 := fun a => if a = addr then data1 else mem a
      (mem1, status_steps data.internal ++ timer_steps ++ [.scheduleIo co])

/-- Steps taken by the timeout handler. -/
inductive ThStep
  | takeTimer (addr : Nat)
  | cancelIo (handle : Nat)
deriving DecidableEq, Repr

/-- `timeout_handler(data)` from `iocp.rs`: if the back-pointer is null,
return immediately; otherwise take the event's timer and `CancelIoEx` the
handle (errors ignored). -/
def timeout_handler (data : TimerData) (mem : Nat → EventData) :
    (Nat → EventData) × List ThStep :=
  match data.event_data with
  | none => (mem, [])
  | some addr =>
    let ed := mem addr
    (fun a => if a = addr then { ed with timer := none } else mem a,
      [.takeTimer addr, .cancelIo ed.handle])

end Iocp

namespace Connect

/-- Unix errno values used by the connect protocol. -/
def EINPROGRESS : Int := 115

def EALREADY : Int := 114

/-- The `IoData` inner state touched by `TcpStreamConnect::subscribe`. -/
structure IoData where
  co : Option Nat
  io_flag : Nat
deriving DecidableEq, Repr

/-- Actions performed by `subscribe`, in order. -/
inductive SubStep
  | addIoTimer (timeout_secs : Option Nat)
  | swapCo (co : Nat)
  | loadIoFlag (v : Nat)
  | schedule
deriving DecidableEq, Repr

/-- `TcpStreamConnect::subscribe(co)`: `add_io_timer(io_data, Some(10s))`,
then `io_data.co.swap(co)`, then load `io_flag`; if it is zero return,
otherwise `schedule()`. -/
def subscribe (d : IoData) (co : Nat) : IoData × List SubStep :=
  let d1 := { d with co := some co }
  let flag := d1.io_flag
  let steps : List SubStep := [.addIoTimer (some 10), .swapCo co, .loadIoFlag flag]
  if flag = 0 then (d1, steps)
  else (d1, steps ++ [.schedule])

/-- Outcome of one `connect` re-probe. -/
inductive ConnectRes
  | ok (stream : Nat)
  | err (code : Int)
deriving DecidableEq, Repr

/-- The environment one iteration of the `done()` loop observes: the pending
coroutine error read by `co_io_result()`, the result of the `connect`
re-probe, and the value `io_flag.swap(0)` returns. -/
structure DoneIter where
  co_para : Option Nat
  connect : ConnectRes
  io_flag : Nat
deriving DecidableEq, Repr

/-- Result of `done()`; `pending` means the iteration script ran out while
the loop would have continued. -/
inductive DoneOutcome
  | ok (stream : Nat)
  | coErr (e : Nat)
  | connErr (code : Int)
  | pending
deriving DecidableEq, Repr

/-- The `loop` of `TcpStreamConnect::done`, scripted by a list of per-
iteration observations; the second component counts `yield_with` calls.
Per iteration: `try!(co_io_result())`; then match `connect(&addr)`:
`EINPROGRESS`/`EALREADY` fall through, anything else returns; then
`io_flag.swap(0) != 0` continues without yielding, otherwise `yield_with`
parks the coroutine and the loop re-enters. -/
def doneLoop : List DoneIter → Nat → DoneOutcome × Nat
  | [], yields => (.pending, yields)
  | it :: rest, yields =>
    match it.co_para with
    | some e => (.coErr e, yields)
    | none =>
      match it.connect with
      | .ok s => (.ok s, yields)
      | .err c =>
        if c = EINPROGRESS ∨ c = EALREADY then
          if it.io_flag ≠ 0 then doneLoop rest yields
          else doneLoop rest (yields + 1)
        else (.connErr c, yields)

/-- `TcpStreamConnect::done`: if the initial `connect` in `new` resolved
(`ret` is `Some`), return that result at once; otherwise run the loop. -/
def done (ret : Option ConnectRes) (iters : List DoneIter) : DoneOutcome × Nat :=
  match ret with
  | some (.ok s) => (.ok s, 0)
  | some (.err c) => (.connErr c, 0)
  | none => doneLoop iters 0

end Connect

namespace Tcp

/-- The wrapped `std::net::TcpStream`. -/
structure SysTcpStream where
  fd : Nat
deriving DecidableEq, Repr

/-- `may::net::TcpStream`: the system stream plus the stored read/write
timeouts (durations modelled as `Nat`). -/
structure TcpStream where
  sys : SysTcpStream
  read_timeout : Option Nat
  write_timeout : Option Nat
deriving DecidableEq, Repr

/-- `TcpStream::try_clone`: maps the system clone result into a new wrapper
with both timeouts `None`; the receiver is untouched (returned unchanged as
the first component). `sys_clone` is the outcome of `self.sys.try_clone()`. -/
def TcpStream.try_clone (s : TcpStream) (sys_clone : Except Nat SysTcpStream) :
    TcpStream × Except Nat TcpStream :=
  (s, sys_clone.map fun c => ⟨c, none, none⟩)

/-- `TcpStream::set_read_timeout`: stores the duration, returns `Ok(())`. -/
def TcpStream.set_read_timeout (s : TcpStream) (dur : Option Nat) :
    TcpStream × Except Nat Unit :=
  ({ s with read_timeout := dur }, .ok ())

/-- `TcpStream::set_write_timeout`: stores the duration, returns `Ok(())`. -/
def TcpStream.set_write_timeout (s : TcpStream) (dur : Option Nat) :
    TcpStream × Except Nat Unit :=
  ({ s with write_timeout := dur }, .ok ())

/-- `TcpStream::read_timeout()`: `Ok(self.read_timeout)`. -/
def TcpStream.read_timeout_result (s : TcpStream) : Except Nat (Option Nat) :=
  .ok s.read_timeout

/-- `TcpStream::write_timeout()`: `Ok(self.write_timeout)`. -/
def TcpStream.write_timeout_result (s : TcpStream) : Except Nat (Option Nat) :=
  .ok s.write_timeout

end Tcp

/-! ## Theorems settling the claims -/

/-- C9: on Unix, `add_io` performs an `EPOLL_CTL_ADD` whose event mask is
exactly `EPOLLONESHOT | EPOLLET` plus `EPOLLIN` when the interest set
contains READ and `EPOLLOUT` when it contains WRITE, and whose token is the
address of the `EventData`. -/
theorem C9_add_io_mask_and_token (s : Epoll.Selector) (ev : Epoll.EventData)
    (hn : 0 < s.vec.length) :
    (s.add_io ev).2.op = Epoll.EpollOp.add
  ∧ (s.add_io ev).2.info.events =
      ((Epoll.EPOLLONESHOT ||| Epoll.EPOLLET)
        ||| (if ev.interest.read then Epoll.EPOLLIN else 0))
        ||| (if ev.interest.write then Epoll.EPOLLOUT else 0)
  ∧ (s.add_io ev).2.info.data = ev.addr := by
  refine ⟨rfl, ?_, rfl⟩
  show Epoll.interest_to_epoll_kind ev.interest = _
  rcases ev.interest with ⟨r, w⟩
  cases r <;> cases w <;> decide

/-- Witness for C9 at a one-shard selector and a READ-interest EventData. -/
theorem C9_witness :
    (0 < (⟨[⟨1, 2, Epoll.TimerList.new⟩]⟩ : Epoll.Selector).vec.length)
  ∧ (((⟨[⟨1, 2, Epoll.TimerList.new⟩]⟩ : Epoll.Selector).add_io
        ⟨3, ⟨true, false⟩, none, none, 0, 42⟩).2.op = Epoll.EpollOp.add
    ∧ ((⟨[⟨1, 2, Epoll.TimerList.new⟩]⟩ : Epoll.Selector).add_io
        ⟨3, ⟨true, false⟩, none, none, 0, 42⟩).2.info.events =
        ((Epoll.EPOLLONESHOT ||| Epoll.EPOLLET)
          ||| (if (⟨3, ⟨true, false⟩, none, none, 0, 42⟩ :
                  Epoll.EventData).interest.read then Epoll.EPOLLIN else 0))
          ||| (if (⟨3, ⟨true, false⟩, none, none, 0, 42⟩ :
                  Epoll.EventData).interest.write then Epoll.EPOLLOUT else 0)
    ∧ ((⟨[⟨1, 2, Epoll.TimerList.new⟩]⟩ : Epoll.Selector).add_io
        ⟨3, ⟨true, false⟩, none, none, 0, 42⟩).2.info.data = 42) :=
  ⟨by decide, C9_add_io_mask_and_token _ _ (by decide)⟩

/-- C8: the shard index used by `add_io`, `del_fd` and `add_io_timer` is
`hash(fd) mod N` where the hash is the plain `fd as usize` cast, so the three
operations on the same fd always pick the same shard. -/
theorem C8_shard_consistency (s : Epoll.Selector) (fd : Nat)
    (ev io : Epoll.EventData) (t : Option Nat)
    (hn : 0 < s.vec.length) (hev : ev.fd = fd) (hio : io.fd = fd) :
    (s.add_io ev).1 = Epoll.fd_hash fd % s.vec.length
  ∧ (s.del_fd fd).1 = Epoll.fd_hash fd % s.vec.length
  ∧ (s.add_io_timer io t).shard = Epoll.fd_hash fd % s.vec.length := by
  refine ⟨?_, rfl, ?_⟩
  · simp [Epoll.Selector.add_io, Epoll.fd_hash, hev]
  · cases t <;> simp [Epoll.Selector.add_io_timer, Epoll.fd_hash, hio]

/-- Witness for C8 on a two-shard selector and fd 5. -/
theorem C8_witness :
    (0 < (⟨[⟨1, 2, Epoll.TimerList.new⟩, ⟨3, 4, Epoll.TimerList.new⟩]⟩ :
        Epoll.Selector).vec.length)
  ∧ (⟨5, ⟨true, false⟩, none, none, 0, 42⟩ : Epoll.EventData).fd = 5
  ∧ (⟨5, ⟨false, true⟩, none, none, 0, 43⟩ : Epoll.EventData).fd = 5
  ∧ (((⟨[⟨1, 2, Epoll.TimerList.new⟩, ⟨3, 4, Epoll.TimerList.new⟩]⟩ :
        Epoll.Selector).add_io ⟨5, ⟨true, false⟩, none, none, 0, 42⟩).1
      = Epoll.fd_hash 5 %
        (⟨[⟨1, 2, Epoll.TimerList.new⟩, ⟨3, 4, Epoll.TimerList.new⟩]⟩ :
          Epoll.Selector).vec.length
    ∧ ((⟨[⟨1, 2, Epoll.TimerList.new⟩, ⟨3, 4, Epoll.TimerList.new⟩]⟩ :
        Epoll.Selector).del_fd 5).1
      = Epoll.fd_hash 5 %
        (⟨[⟨1, 2, Epoll.TimerList.new⟩, ⟨3, 4, Epoll.TimerList.new⟩]⟩ :
          Epoll.Selector).vec.length
    ∧ ((⟨[⟨1, 2, Epoll.TimerList.new⟩, ⟨3, 4, Epoll.TimerList.new⟩]⟩ :
        Epoll.Selector).add_io_timer ⟨5, ⟨false, true⟩, none, none, 0, 43⟩
          (some 7)).shard
      = Epoll.fd_hash 5 %
        (⟨[⟨1, 2, Epoll.TimerList.new⟩, ⟨3, 4, Epoll.TimerList.new⟩]⟩ :
          Epoll.Selector).vec.length) :=
  ⟨by decide, rfl, rfl, C8_shard_consistency _ 5 _ _ _ (by decide) rfl rfl⟩

/-- C3: `add_io_timer` with `Some d` inserts `(d, io.timer_data())` into the
owning shard's timer list, stores the returned handle in `io.timer`, and
wakes that shard exactly when the insertion produced a new earliest deadline;
with `None` it stores `None` and inserts nothing. -/
theorem C3_add_io_timer (s : Epoll.Selector) (io : Epoll.EventData) (d id : Nat)
    (ss : Epoll.SingleSelector)
    (hn : 0 < s.vec.length)
    (hid : id = io.fd % s.vec.length)
    (hss : ss = s.vec.getD id default) :
    ((s.add_io_timer io (some d)).io.timer = some ss.timer_list.next_handle)
  ∧ ((s.add_io_timer io (some d)).shard = id)
  ∧ (((s.add_io_timer io (some d)).sel.vec.getD id default).timer_list.entries
      = ss.timer_list.entries ++ [(ss.timer_list.next_handle, d, io.timer_data)])
  ∧ ((s.add_io_timer io (some d)).wakeups = [id]
      ↔ ∀ e ∈ ss.timer_list.entries, d < e.2.1)
  ∧ ((s.add_io_timer io none).io.timer = none
      ∧ (s.add_io_timer io none).sel = s
      ∧ (s.add_io_timer io none).wakeups = []) := by
  subst hid hss
  have hlt : io.fd % s.vec.length < s.vec.length := Nat.mod_lt _ hn
  refine ⟨?_, rfl, ?_, ?_, rfl, rfl, rfl⟩
  · simp [Epoll.Selector.add_io_timer, Epoll.TimerList.add_timer]
  · simp only [Epoll.Selector.add_io_timer, Epoll.TimerList.add_timer]
    rw [List.getD_eq_getElem?_getD, List.getElem?_set_self (h := by simpa using hlt)]
    simp
  · simp only [Epoll.Selector.add_io_timer, Epoll.TimerList.add_timer]
    by_cases hb : ((s.vec.getD (io.fd % s.vec.length)
        default).timer_list.entries.all fun e => decide (d < e.2.1)) = true
    · simp only [hb, if_true]
      simp only [List.all_eq_true, decide_eq_true_eq] at hb
      simpa using hb
    · simp only [hb, if_false]
      simp only [List.all_eq_true, decide_eq_true_eq] at hb
      simpa using hb

/-- Witness for C3 at a one-shard selector with an empty timer list. -/
theorem C3_witness :
    (0 < (⟨[⟨1, 2, Epoll.TimerList.new⟩]⟩ : Epoll.Selector).vec.length)
  ∧ ((0 : Nat) = (⟨6, ⟨true, false⟩, none, none, 0, 42⟩ : Epoll.EventData).fd %
        (⟨[⟨1, 2, Epoll.TimerList.new⟩]⟩ : Epoll.Selector).vec.length)
  ∧ ((⟨1, 2, Epoll.TimerList.new⟩ : Epoll.SingleSelector)
      = (⟨[⟨1, 2, Epoll.TimerList.new⟩]⟩ : Epoll.Selector).vec.getD 0 default)
  ∧ (((⟨[⟨1, 2, Epoll.TimerList.new⟩]⟩ : Epoll.Selector).add_io_timer
        ⟨6, ⟨true, false⟩, none, none, 0, 42⟩ (some 9)).io.timer
      = some (⟨1, 2, Epoll.TimerList.new⟩ :
          Epoll.SingleSelector).timer_list.next_handle
    ∧ ((⟨[⟨1, 2, Epoll.TimerList.new⟩]⟩ : Epoll.Selector).add_io_timer
        ⟨6, ⟨true, false⟩, none, none, 0, 42⟩ (some 9)).shard = 0
    ∧ (((⟨[⟨1, 2, Epoll.TimerList.new⟩]⟩ : Epoll.Selector).add_io_timer
        ⟨6, ⟨true, false⟩, none, none, 0, 42⟩ (some 9)).sel.vec.getD 0
          default).timer_list.entries
      = (⟨1, 2, Epoll.TimerList.new⟩ :
          Epoll.SingleSelector).timer_list.entries ++
        [((⟨1, 2, Epoll.TimerList.new⟩ :
            Epoll.SingleSelector).timer_list.next_handle, 9,
          (⟨6, ⟨true, false⟩, none, none, 0, 42⟩ : Epoll.EventData).timer_data)]
    ∧ (((⟨[⟨1, 2, Epoll.TimerList.new⟩]⟩ : Epoll.Selector).add_io_timer
        ⟨6, ⟨true, false⟩, none, none, 0, 42⟩ (some 9)).wakeups = [0]
      ↔ ∀ e ∈ (⟨1, 2, Epoll.TimerList.new⟩ :
          Epoll.SingleSelector).timer_list.entries, 9 < e.2.1)
    ∧ (((⟨[⟨1, 2, Epoll.TimerList.new⟩]⟩ : Epoll.Selector).add_io_timer
          ⟨6, ⟨true, false⟩, none, none, 0, 42⟩ none).io.timer = none
      ∧ ((⟨[⟨1, 2, Epoll.TimerList.new⟩]⟩ : Epoll.Selector).add_io_timer
          ⟨6, ⟨true, false⟩, none, none, 0, 42⟩ none).sel
        = (⟨[⟨1, 2, Epoll.TimerList.new⟩]⟩ : Epoll.Selector)
      ∧ ((⟨[⟨1, 2, Epoll.TimerList.new⟩]⟩ : Epoll.Selector).add_io_timer
          ⟨6, ⟨true, false⟩, none, none, 0, 42⟩ none).wakeups = [])) :=
  ⟨by decide, rfl, rfl, C3_add_io_timer _ _ 9 0 _ (by decide) rfl rfl⟩

/-- C10: a successful `try_clone` yields a stream whose `read_timeout()` and
`write_timeout()` are `Ok(None)` whatever timeouts were set on the original
(including after `set_read_timeout`/`set_write_timeout`), and the original's
stored timeouts are unchanged by the clone. -/
theorem C10_try_clone_fresh_timeouts (s : Tcp.TcpStream) (c : Tcp.SysTcpStream)
    (e : Except Nat Tcp.SysTcpStream) :
    (∃ t, (s.try_clone (.ok c)).2 = .ok t
        ∧ t.read_timeout_result = .ok none
        ∧ t.write_timeout_result = .ok none)
  ∧ (∀ dr dw,
      ((((s.set_read_timeout dr).1.set_write_timeout dw).1.try_clone
          (.ok c)).2 = .ok ⟨c, none, none⟩))
  ∧ ((s.try_clone e).1.read_timeout = s.read_timeout
      ∧ (s.try_clone e).1.write_timeout = s.write_timeout) :=
  ⟨⟨⟨c, none, none⟩, rfl, rfl, rfl⟩, fun _ _ => rfl, rfl, rfl⟩

/-- C5: `subscribe` first registers the 10-second timer, then publishes the
coroutine into the `co` slot, then re-reads `io_flag`; it self-schedules
exactly when the flag is non-zero. -/
theorem C5_subscribe_order (d : Connect.IoData) (co : Nat) :
    ((Connect.subscribe d co).1 = { d with co := some co })
  ∧ ((Connect.subscribe d co).2.take 3
      = [.addIoTimer (some 10), .swapCo co, .loadIoFlag d.io_flag])
  ∧ (Connect.SubStep.schedule ∈ (Connect.subscribe d co).2 ↔ d.io_flag ≠ 0) := by
  by_cases h : d.io_flag = 0 <;>
    simp [Connect.subscribe, h]

/-- C1 counterexample: on Unix, `select` processing an event whose decoded
`EventData` has an empty `co` slot hits
`.expect("can't get co in selector")` — a panic, not a logged no-op. -/
theorem C1_counterexample :
    Epoll.select_process_event ⟨Epoll.EPOLLIN, 5⟩
      (fun _ => ⟨3, ⟨true, false⟩, none, none, 0, 5⟩) true
      = .error "can't get co in selector" := rfl

/-- C1 (amended): on Windows, `select` finding an empty `co` slot logs at
error severity and continues to the next event without crashing; on Unix,
`select` panics (`expect`) when the decoded `EventData`'s `co` slot is
empty. -/
theorem C1_amended_empty_co_slot (st : Iocp.CompletionStatus)
    (wmem : Nat → Iocp.EventData) (waddr : Nat)
    (ev : Epoll.EpollEvent) (umem : Nat → Epoll.EventData) (b : Bool)
    (hov : st.overlapped = some waddr) (hwco : (wmem waddr).co = none)
    (hne : ev.data ≠ 0) (huco : (umem ev.data).co = none) :
    (Iocp.select_process_status st wmem = (wmem, [.errorLogNoCo]))
  ∧ (Epoll.select_process_event ev umem b
      = .error "can't get co in selector") := by
  constructor
  · simp [Iocp.select_process_status, hov, hwco]
  · simp [Epoll.select_process_event, hne, huco]

/-- Witness for the amended C1 at concrete completion/event states. -/
theorem C1_amended_witness :
    (⟨some 7⟩ : Iocp.CompletionStatus).overlapped = some 7
  ∧ ((fun _ => ⟨9, none, none, 0, 7⟩ : Nat → Iocp.EventData) 7).co = none
  ∧ (⟨Epoll.EPOLLIN, 5⟩ : Epoll.EpollEvent).data ≠ 0
  ∧ ((fun _ => ⟨3, ⟨true, false⟩, none, none, 0, 5⟩ : Nat → Epoll.EventData)
      (⟨Epoll.EPOLLIN, 5⟩ : Epoll.EpollEvent).data).co = none
  ∧ ((Iocp.select_process_status ⟨some 7⟩
        (fun _ => ⟨9, none, none, 0, 7⟩)
      = ((fun _ => ⟨9, none, none, 0, 7⟩), [.errorLogNoCo]))
    ∧ (Epoll.select_process_event ⟨Epoll.EPOLLIN, 5⟩
        (fun _ => ⟨3, ⟨true, false⟩, none, none, 0, 5⟩) true
      = .error "can't get co in selector")) :=
  ⟨rfl, rfl, by decide, rfl,
    C1_amended_empty_co_slot _ _ 7 _ _ true rfl rfl (by decide) rfl⟩

/-- C2: when `select` removes the timer of a completed I/O, the trace nulls
the `TimerData` back-pointer strictly before unlinking the timer node; and
`timeout_handler` invoked on a `TimerData` with a null back-pointer returns
at once, acting on nothing. -/
theorem C2_timer_removal_defuses (ev : Epoll.EpollEvent)
    (mem : Nat → Epoll.EventData) (co h : Nat)
    (hne : ev.data ≠ 0) (hco : (mem ev.data).co = some co)
    (ht : (mem ev.data).timer = some h)
    (wmem : Nat → Iocp.EventData) :
    (Epoll.select_process_event ev mem true
      = .ok (fun a => if a = ev.data
              then { mem ev.data with co := none, timer := none } else mem a,
          [.prefetch co, .nullBackPtr h, .unlinkTimer h, .resume co,
            .subscribe co]))
  ∧ (Iocp.timeout_handler ⟨none⟩ wmem = (wmem, [])) := by
  constructor
  · simp [Epoll.select_process_event, hne, hco, ht]
  · rfl

/-- Witness for C2 at a concrete event with a registered timer. -/
theorem C2_witness :
    (⟨Epoll.EPOLLIN, 6⟩ : Epoll.EpollEvent).data ≠ 0
  ∧ ((fun _ => ⟨3, ⟨true, false⟩, some 2, some 4, 0, 6⟩ :
        Nat → Epoll.EventData)
      (⟨Epoll.EPOLLIN, 6⟩ : Epoll.EpollEvent).data).co = some 4
  ∧ ((fun _ => ⟨3, ⟨true, false⟩, some 2, some 4, 0, 6⟩ :
        Nat → Epoll.EventData)
      (⟨Epoll.EPOLLIN, 6⟩ : Epoll.EpollEvent).data).timer = some 2
  ∧ ((Epoll.select_process_event ⟨Epoll.EPOLLIN, 6⟩
        (fun _ => ⟨3, ⟨true, false⟩, some 2, some 4, 0, 6⟩) true
      = .ok (fun a => if a = (⟨Epoll.EPOLLIN, 6⟩ : Epoll.EpollEvent).data
              then { (fun _ => ⟨3, ⟨true, false⟩, some 2, some 4, 0, 6⟩ :
                      Nat → Epoll.EventData)
                    (⟨Epoll.EPOLLIN, 6⟩ : Epoll.EpollEvent).data with
                    co := none, timer := none }
              else (fun _ => ⟨3, ⟨true, false⟩, some 2, some 4, 0, 6⟩ :
                      Nat → Epoll.EventData) a,
          [.prefetch 4, .nullBackPtr 2, .unlinkTimer 2, .resume 4,
            .subscribe 4]))
    ∧ (Iocp.timeout_handler ⟨none⟩ (fun _ => ⟨9, none, none, 0, 0⟩)
        = ((fun _ => ⟨9, none, none, 0, 0⟩), []))) :=
  ⟨by decide, rfl, rfl,
    C2_timer_removal_defuses _ _ 4 2 (by decide) rfl rfl _⟩

/-- C4: the Windows `select` status dispatch for a non-null overlapped with a
populated `co` slot: `ERROR_OPERATION_ABORTED`/`STATUS_CANCELLED` attach a
TimedOut error, `NO_ERROR` attaches nothing, any other non-zero status
attaches the OS error built from that code. -/
theorem C4_win_status_dispatch (st : Iocp.CompletionStatus)
    (mem : Nat → Iocp.EventData) (addr co : Nat)
    (hov : st.overlapped = some addr) (hco : (mem addr).co = some co) :
    (((mem addr).internal = Iocp.ERROR_OPERATION_ABORTED
        ∨ (mem addr).internal = Iocp.STATUS_CANCELLED) →
      Iocp.WinStep.setCoPara .timedOut ∈ (Iocp.select_process_status st mem).2)
  ∧ ((mem addr).internal = Iocp.NO_ERROR →
      ∀ e, Iocp.WinStep.setCoPara e ∉ (Iocp.select_process_status st mem).2)
  ∧ (((mem addr).internal ≠ Iocp.ERROR_OPERATION_ABORTED
        ∧ (mem addr).internal ≠ Iocp.STATUS_CANCELLED
        ∧ (mem addr).internal ≠ Iocp.NO_ERROR) →
      Iocp.WinStep.setCoPara (.osErr (mem addr).internal)
        ∈ (Iocp.select_process_status st mem).2) := by
  refine ⟨fun hs => ?_, fun hs e => ?_, fun hs => ?_⟩
  · rcases ht : (mem addr).timer with _ | htm <;>
      simp [Iocp.select_process_status, hov, hco, ht, Iocp.status_steps, hs]
  · rcases ht : (mem addr).timer with _ | htm <;>
      simp [Iocp.select_process_status, hov, hco, ht, Iocp.status_steps, hs,
        Iocp.NO_ERROR, Iocp.ERROR_OPERATION_ABORTED, Iocp.STATUS_CANCELLED]
  · obtain ⟨h1, h2, h3⟩ := hs
    rcases ht : (mem addr).timer with _ | htm <;>
      simp [Iocp.select_process_status, hov, hco, ht, Iocp.status_steps,
        h1, h2, h3]

/-- Witness for C4 at an aborted completion (status 995). -/
theorem C4_witness :
    (⟨some 7⟩ : Iocp.CompletionStatus).overlapped = some 7
  ∧ ((fun _ => ⟨9, none, some 4, 995, 7⟩ : Nat → Iocp.EventData) 7).co = some 4
  ∧ ((((fun _ => ⟨9, none, some 4, 995, 7⟩ : Nat → Iocp.EventData) 7).internal
          = Iocp.ERROR_OPERATION_ABORTED
        ∨ ((fun _ => ⟨9, none, some 4, 995, 7⟩ : Nat → Iocp.EventData)
            7).internal = Iocp.STATUS_CANCELLED) →
      Iocp.WinStep.setCoPara .timedOut ∈
        (Iocp.select_process_status ⟨some 7⟩
          (fun _ => ⟨9, none, some 4, 995, 7⟩)).2)
  ∧ (((fun _ => ⟨9, none, some 4, 995, 7⟩ : Nat → Iocp.EventData) 7).internal
        = Iocp.NO_ERROR →
      ∀ e, Iocp.WinStep.setCoPara e ∉
        (Iocp.select_process_status ⟨some 7⟩
          (fun _ => ⟨9, none, some 4, 995, 7⟩)).2)
  ∧ ((((fun _ => ⟨9, none, some 4, 995, 7⟩ : Nat → Iocp.EventData) 7).internal
          ≠ Iocp.ERROR_OPERATION_ABORTED
        ∧ ((fun _ => ⟨9, none, some 4, 995, 7⟩ : Nat → Iocp.EventData)
            7).internal ≠ Iocp.STATUS_CANCELLED
        ∧ ((fun _ => ⟨9, none, some 4, 995, 7⟩ : Nat → Iocp.EventData)
            7).internal ≠ Iocp.NO_ERROR) →
      Iocp.WinStep.setCoPara
        (.osErr ((fun _ => ⟨9, none, some 4, 995, 7⟩ :
            Nat → Iocp.EventData) 7).internal) ∈
        (Iocp.select_process_status ⟨some 7⟩
          (fun _ => ⟨9, none, some 4, 995, 7⟩)).2) := by
  have h := C4_win_status_dispatch ⟨some 7⟩
    (fun _ => ⟨9, none, some 4, 995, 7⟩) 7 4 rfl rfl
  exact ⟨rfl, rfl, h.1, h.2.1, h.2.2⟩

/-- C6: `done()` returns the stored result without yielding when the initial
connect resolved; otherwise each loop iteration (with no pending coroutine
error) returns on any connect outcome other than `EINPROGRESS`/`EALREADY`,
and on those two it retries without yielding when `io_flag.swap(0)` read
non-zero and yields exactly once more when it read zero. -/
theorem C6_done_protocol (iters rest : List Connect.DoneIter)
    (it : Connect.DoneIter) (y : Nat) (hco : it.co_para = none) :
    (∀ s, Connect.done (some (.ok s)) iters = (.ok s, 0))
  ∧ (∀ c, Connect.done (some (.err c)) iters = (.connErr c, 0))
  ∧ (∀ s, it.connect = .ok s →
      Connect.doneLoop (it :: rest) y = (.ok s, y))
  ∧ (∀ c, it.connect = .err c →
      c ≠ Connect.EINPROGRESS → c ≠ Connect.EALREADY →
      Connect.doneLoop (it :: rest) y = (.connErr c, y))
  ∧ (∀ c, it.connect = .err c →
      (c = Connect.EINPROGRESS ∨ c = Connect.EALREADY) →
      ((it.io_flag ≠ 0 →
          Connect.doneLoop (it :: rest) y = Connect.doneLoop rest y)
        ∧ (it.io_flag = 0 →
          Connect.doneLoop (it :: rest) y = Connect.doneLoop rest (y + 1)))) := by
  refine ⟨fun s => rfl, fun c => rfl, fun s hc => ?_, fun c hc h1 h2 => ?_,
    fun c hc hin => ⟨fun hf => ?_, fun hf => ?_⟩⟩ <;>
      simp [Connect.doneLoop, hco, hc]
  · simp [h1, h2]
  · simp [hin, hf]
  · simp [hin, hf]

/-- Witness for C6 at a pending iteration (`EINPROGRESS`, flag read 1). -/
theorem C6_witness :
    (⟨none, .err 115, 1⟩ : Connect.DoneIter).co_para = none
  ∧ ((∀ s, Connect.done (some (.ok s)) [] = (.ok s, 0))
    ∧ (∀ c, Connect.done (some (.err c)) [] = (.connErr c, 0))
    ∧ (∀ s, (⟨none, .err 115, 1⟩ : Connect.DoneIter).connect = .ok s →
        Connect.doneLoop [⟨none, .err 115, 1⟩] 0 = (.ok s, 0))
    ∧ (∀ c, (⟨none, .err 115, 1⟩ : Connect.DoneIter).connect = .err c →
        c ≠ Connect.EINPROGRESS → c ≠ Connect.EALREADY →
        Connect.doneLoop [⟨none, .err 115, 1⟩] 0 = (.connErr c, 0))
    ∧ (∀ c, (⟨none, .err 115, 1⟩ : Connect.DoneIter).connect = .err c →
        (c = Connect.EINPROGRESS ∨ c = Connect.EALREADY) →
        (((⟨none, .err 115, 1⟩ : Connect.DoneIter).io_flag ≠ 0 →
            Connect.doneLoop [⟨none, .err 115, 1⟩] 0 = Connect.doneLoop [] 0)
          ∧ ((⟨none, .err 115, 1⟩ : Connect.DoneIter).io_flag = 0 →
            Connect.doneLoop [⟨none, .err 115, 1⟩] 0
              = Connect.doneLoop [] (0 + 1))))) :=
  ⟨rfl, C6_done_protocol [] [] ⟨none, .err 115, 1⟩ 0 rfl⟩

/-- Under a no-failure OS, shard construction consumes two fresh fds and
registers the eventfd wakeup channel on the fresh epoll fd. -/
theorem SingleSelector_new_ok (os : Epoll.Os) (h : os.nofail) :
    Epoll.SingleSelector.new os
      = .ok (⟨os.next_fd, os.next_fd + 1, Epoll.TimerList.new⟩,
          ⟨os.next_fd + 2,
            os.regs ++ [⟨os.next_fd, os.next_fd + 1, Epoll.wakeup_info⟩],
            false, false, false⟩) := by
  rcases os with ⟨nf, regs, f1, f2, f3⟩
  obtain ⟨h1, h2, h3⟩ := h
  simp_all [Epoll.SingleSelector.new, Epoll.Os.epoll_create,
    Epoll.Os.create_eventfd, Epoll.Os.epoll_ctl_add]

/-- Closed form of the `Selector::new` construction loop under a no-failure
OS: it succeeds for every requested count, appending one shard per
iteration with consecutively allocated fds. -/
theorem Selector_newAux_ok (n : Nat) :
    ∀ (acc : List Epoll.SingleSelector) (os : Epoll.Os), os.nofail →
    Epoll.Selector.newAux n acc os
      = .ok (acc ++ (List.range n).map (fun i =>
            (⟨os.next_fd + 2 * i, os.next_fd + 2 * i + 1,
              Epoll.TimerList.new⟩ : Epoll.SingleSelector)),
          ⟨os.next_fd + 2 * n,
            os.regs ++ (List.range n).map (fun i =>
              (⟨os.next_fd + 2 * i, os.next_fd + 2 * i + 1,
                Epoll.wakeup_info⟩ : Epoll.EpollCtlReg)),
            false, false, false⟩) := by
  induction n with
  | zero =>
    intro acc os h
    obtain ⟨h1, h2, h3⟩ := h
    rcases os with ⟨nf, regs, f1, f2, f3⟩
    simp_all [Epoll.Selector.newAux]
  | succ n ih =>
    intro acc os h
    have hstep := SingleSelector_new_ok os h
    rcases os with ⟨nf, regs, f1, f2, f3⟩
    obtain ⟨h1, h2, h3⟩ := h
    simp only at h1 h2 h3
    subst h1 h2 h3
    simp only [Epoll.Selector.newAux, hstep]
    rw [ih _ _ ⟨rfl, rfl, rfl⟩]
    simp only [List.range_succ_eq_map, List.map_cons, List.map_map,
      List.append_assoc, List.singleton_append, List.cons_append,
      List.nil_append, Nat.mul_zero, Nat.add_zero]
    have hshards : (List.range n).map (fun i =>
          (⟨nf + 2 + 2 * i, nf + 2 + 2 * i + 1,
            Epoll.TimerList.new⟩ : Epoll.SingleSelector))
        = (List.range n).map ((fun i =>
            (⟨nf + 2 * i, nf + 2 * i + 1,
              Epoll.TimerList.new⟩ : Epoll.SingleSelector)) ∘ Nat.succ) := by
      apply List.map_congr_left
      intro a _
      simp only [Function.comp, Nat.succ_eq_add_one]
      congr 1 <;> omega
    have hregs : (List.range n).map (fun i =>
          (⟨nf + 2 + 2 * i, nf + 2 + 2 * i + 1,
            Epoll.wakeup_info⟩ : Epoll.EpollCtlReg))
        = (List.range n).map ((fun i =>
            (⟨nf + 2 * i, nf + 2 * i + 1,
              Epoll.wakeup_info⟩ : Epoll.EpollCtlReg)) ∘ Nat.succ) := by
      apply List.map_congr_left
      intro a _
      simp only [Function.comp, Nat.succ_eq_add_one]
      congr 1 <;> omega
    rw [hshards, hregs, (by omega : nf + 2 + 2 * n = nf + 2 * (n + 1))]

/-- C7 counterexample: `Selector::new(0)` succeeds — with zero shards — even
though 0 is outside `1 ≤ n_workers ≤ 128`; the code never checks the count. -/
theorem C7_counterexample :
    (Epoll.Selector.new 0 ⟨3, [], false, false, false⟩
      = .ok (⟨[]⟩, ⟨3, [], false, false, false⟩))
  ∧ ¬ (1 ≤ (0 : Nat)) := ⟨rfl, by decide⟩

/-- C7 (amended): `Selector::new(n_workers)` enforces no bound on the count;
whenever every OS call succeeds it returns, for any `n_workers` (including 0
and values above 128), a Selector with exactly `n_workers` shards, each
having its own distinct epoll handle and its own eventfd wakeup channel
registered on that handle. -/
theorem C7_amended_new_unbounded (n : Nat) (os : Epoll.Os) (h : os.nofail) :
    ∃ sel os1, Epoll.Selector.new n os = .ok (sel, os1)
    ∧ sel.vec.length = n
    ∧ (∀ ss ∈ sel.vec,
        (⟨ss.epfd, ss.evfd, Epoll.wakeup_info⟩ : Epoll.EpollCtlReg) ∈ os1.regs)
    ∧ sel.vec.Pairwise (fun a b => a.epfd ≠ b.epfd ∧ a.evfd ≠ b.evfd) := by
  have hc := Selector_newAux_ok n [] os h
  refine ⟨⟨(List.range n).map (fun i =>
      (⟨os.next_fd + 2 * i, os.next_fd + 2 * i + 1,
        Epoll.TimerList.new⟩ : Epoll.SingleSelector))⟩,
    ⟨os.next_fd + 2 * n,
      os.regs ++ (List.range n).map (fun i =>
        (⟨os.next_fd + 2 * i, os.next_fd + 2 * i + 1,
          Epoll.wakeup_info⟩ : Epoll.EpollCtlReg)),
      false, false, false⟩, ?_, ?_, ?_, ?_⟩
  · simp [Epoll.Selector.new, hc]
  · simp
  · intro ss hss
    simp only [List.mem_map, List.mem_range] at hss
    obtain ⟨i, hi, rfl⟩ := hss
    refine List.mem_append_right _ ?_
    exact List.mem_map.mpr ⟨i, List.mem_range.mpr hi, rfl⟩
  · rw [List.pairwise_map]
    refine (List.pairwise_lt_range n).imp ?_
    intro a b hab
    exact ⟨by simp only; omega, by simp only; omega⟩

/-- Witness for the amended C7 at two workers and a fresh OS state. -/
theorem C7_witness :
    (⟨0, [], false, false, false⟩ : Epoll.Os).nofail
  ∧ (∃ sel os1,
      Epoll.Selector.new 2 ⟨0, [], false, false, false⟩ = .ok (sel, os1)
    ∧ sel.vec.length = 2
    ∧ (∀ ss ∈ sel.vec,
        (⟨ss.epfd, ss.evfd, Epoll.wakeup_info⟩ : Epoll.EpollCtlReg) ∈ os1.regs)
    ∧ sel.vec.Pairwise (fun a b => a.epfd ≠ b.epfd ∧ a.evfd ≠ b.evfd)) :=
  ⟨⟨rfl, rfl, rfl⟩, C7_amended_new_unbounded 2 _ ⟨rfl, rfl, rfl⟩⟩

end May
